import Mathlib

/-!
Verification of the facets_atlasmaker pipeline (facets repository).

Shallow embedding of the Python modules `convert.py`, `atlasmaker_io.py`,
`parallelize.py` and `montage.py`.  Images are modelled as a trace datatype
`PImg` recording the PIL operations performed on them (`Image.new`,
`ImageOps.fit`, in-place `Image.thumbnail` resizing, `Image.paste`), so that
theorems can speak both about the pixel size of a result and about the
structure of the operation that produced it (which canvas, which offset,
which scaled size).  PIL size semantics used by the embedding:
  * `Image.new(mode, size, color)` has exactly `size`;
  * `ImageOps.fit(image, size, centering)` returns a new image of exactly
    `size` (it crops to the requested aspect ratio and resizes);
  * `image.thumbnail(size)` mutates `image` in place, shrinking it to fit
    inside `size` while keeping the aspect ratio, and never enlarging
    (classic PIL algorithm: two successive integer-division fits);
  * `canvas.paste(img, offset)` never changes the canvas size.
Python-2 arithmetic is modelled explicitly: `int(round(x))` is
round-half-away-from-zero (`pyRound`), `/` on the quoted lines is true
division (`from __future__ import division` is in effect in `convert.py`),
and PIL's thumbnail division on Python-2 ints is floor division.
-/

/-- RGBA color: the four channels (r, g, b, opacity) as Python integers. -/
def RGBA := Int × Int × Int × Int

instance : DecidableEq RGBA := by unfold RGBA; infer_instance

/-- Trace model of a PIL image.  `source` is an image handed to the
converter (for instance the result of `Image.open`), carrying its pixel
size and its PIL `format` attribute; the other constructors record the
PIL calls made by `convert.py` / `montage.py`. -/
inductive PImg : Type where
  /-- an input image of the given size whose PIL `format` attribute is set -/
  | source (w h : Nat) (fmt : String)
  /-- the call `Image.new(mode, size, color)` -/
  | new (mode : String) (size : Nat × Nat) (color : RGBA)
  /-- the call `ImageOps.fit(image, size, centering)`: exact requested size -/
  | fit (img : PImg) (size : Nat × Nat) (centering : ℚ × ℚ)
  /-- the in-place resize performed by `Image.thumbnail` -/
  | resized (img : PImg) (size : Nat × Nat)
  /-- the call `canvas.paste(img, offset)`: the canvas, mutated -/
  | pasted (canvas : PImg) (img : PImg) (offset : Int × Int)
  deriving DecidableEq

/-- Pixel size of an image in the trace model. -/
def PImg.size : PImg → Nat × Nat
  | .source w h _ => (w, h)
  | .new _ sz _ => sz
  | .fit _ sz _ => sz
  | .resized _ sz => sz
  | .pasted canvas _ _ => canvas.size

/-- PIL `format` attribute: set on opened images, `None` on images produced
by `Image.new` / `ImageOps.fit` / resizing. -/
def PImg.format : PImg → Option String
  | .source _ _ fmt => some fmt
  | _ => none

/-- Python 2 `int(round(x))`: round half away from zero (the value is then
integral, so `int` truncation is the identity). -/
def pyRound (q : ℚ) : Int :=
  if 0 ≤ q then ⌊q + 1/2⌋ else ⌈q - 1/2⌉

/-- Size computed by PIL's `Image.thumbnail(size)` (classic algorithm):
shrink-to-fit the bounding box, never enlarging; Python-2 integer division.

    x, y = self.size
    if x > size[0]: y = int(max(y * size[0] / x, 1)); x = int(size[0])
    if y > size[1]: x = int(max(x * size[1] / y, 1)); y = int(size[1])
-/
def thumbnailSize (sz box : Nat × Nat) : Nat × Nat :=
  let p := if sz.1 > box.1 then (box.1, max (sz.2 * box.1 / sz.1) 1) else sz
  if p.2 > box.2 then (max (p.1 * box.2 / p.2) 1, box.2) else p

/-- Model of `Image.thumbnail`: mutates the image in place; PIL returns without
resizing when the computed size equals the current size. -/
def PImg.thumbnail (img : PImg) (box : Nat × Nat) : PImg :=
  let sz := thumbnailSize img.size box
  if sz = img.size then img else PImg.resized img sz

/-- Settings object `ImageConvertSettings` as built by a successful `__init__`
(`convert.py`).  `position` is the anchor pair, each component in [0,1];
`bg_color` is RGBA including the opacity channel; `bg_mode` is the
constant `'RGBA'`. -/
structure ImageConvertSettings where
  format : String
  width : Nat
  height : Nat
  position : ℚ × ℚ
  bg_color : RGBA
  resize_if_larger : Bool
  preserve_aspect_ratio : Bool
  deriving DecidableEq

/-- Constant `_REQUIRED_MIN_DIMENSION` in `convert.py`. -/
def REQUIRED_MIN_DIMENSION : Int := 10

/-- The constraints checked by `ImageConvertSettings._validate_settings`,
as a predicate on the built settings object. -/
def ImageConvertSettings.Valid (s : ImageConvertSettings) : Prop :=
  (0 ≤ s.position.1 ∧ s.position.1 ≤ 1) ∧ (0 ≤ s.position.2 ∧ s.position.2 ≤ 1) ∧
  (0 ≤ s.bg_color.1 ∧ s.bg_color.1 ≤ 255) ∧
  (0 ≤ s.bg_color.2.1 ∧ s.bg_color.2.1 ≤ 255) ∧
  (0 ≤ s.bg_color.2.2 ∧ s.bg_color.2.2 ≤ 255) ∧
  (0 ≤ s.bg_color.2.2.2 ∧ s.bg_color.2.2.2 ≤ 255) ∧
  REQUIRED_MIN_DIMENSION ≤ (s.width : Int) ∧ REQUIRED_MIN_DIMENSION ≤ (s.height : Int)

instance (s : ImageConvertSettings) : Decidable s.Valid := by
  unfold ImageConvertSettings.Valid; infer_instance

namespace ImageConverter

/-- Model of `ImageConverter._pad_to_larger_size`:
    offset = (int(round(desired_w / 2)), int(round(desired_h / 2)))
    bkgd = Image.new(bg_mode, desired, bg_color); bkgd.paste(orig, offset)
-/
def pad_to_larger_size (img : PImg) (s : ImageConvertSettings) : PImg :=
  let offset := (pyRound ((s.width : ℚ) / 2), pyRound ((s.height : ℚ) / 2))
  PImg.pasted (PImg.new "RGBA" (s.width, s.height) s.bg_color) img offset

/-- Model of `ImageConverter._resize_larger_dont_keep_aspect_ratio`:
`ImageOps.fit(image, desired_size)` (default centering (0.5, 0.5)). -/
def resize_larger_dont_keep_aspect_ratio (img : PImg)
    (s : ImageConvertSettings) : PImg :=
  PImg.fit img (s.width, s.height) (1/2, 1/2)

/-- Model of `ImageConverter._resize_larger_keep_aspect_ratio`.  Note the source
assigns `(new_width, new_height) = (int(round(orig_h * resize_ratio)),
int(round(orig_w * resize_ratio)))` — height and width swapped. -/
def resize_larger_keep_aspect_ratio (img : PImg)
    (s : ImageConvertSettings) : PImg :=
  let ow := img.size.1
  let oh := img.size.2
  let resize_ratio : ℚ := min ((s.width : ℚ) / ow) ((s.height : ℚ) / oh)
  let new_width : Nat := (pyRound ((oh : ℚ) * resize_ratio)).toNat
  let new_height : Nat := (pyRound ((ow : ℚ) * resize_ratio)).toNat
  let new_img := PImg.fit img (new_width, new_height) (1/2, 1/2)
  if (s.width, s.height) = (new_width, new_height) then new_img
  else
    let offset := (pyRound (((s.width : ℚ) - new_width) / 2),
                   pyRound (((s.height : ℚ) - new_height) / 2))
    PImg.pasted (PImg.new "RGBA" (s.width, s.height) s.bg_color) new_img offset

/-- Model of `ImageConverter._resize_thumbnail_keep_aspect_ratio`: in-place
`thumbnail`, then paste onto a background canvas at the anchor-weighted
offset.  Returns (result, the mutated original image). -/
def resize_thumbnail_keep_aspect_ratio (img : PImg)
    (s : ImageConvertSettings) : PImg × PImg :=
  let img' := img.thumbnail (s.width, s.height)
  let offset := (pyRound (((s.width : ℚ) - (img'.size.1 : ℚ)) * s.position.1),
                 pyRound (((s.height : ℚ) - (img'.size.2 : ℚ)) * s.position.2))
  (PImg.pasted (PImg.new "RGBA" (s.width, s.height) s.bg_color) img' offset,
   img')

/-- Model of `ImageConverter._resize_thumbnail_and_crop`:
`ImageOps.fit(image, desired_size, centering=position)`. -/
def resize_thumbnail_and_crop (img : PImg) (s : ImageConvertSettings) : PImg :=
  PImg.fit img (s.width, s.height) s.position

/-- Model of `ImageConverter.convert`.  Returns (converted image, final state of the
original image object): the thumbnail branch mutates the original in place,
every other branch leaves it untouched. -/
def convert (img : PImg) (s : ImageConvertSettings) : PImg × PImg :=
  if img.size = (s.width, s.height) ∧ img.format = some s.format.toLower.toUpper
  then (img, img)
  else if s.width > img.size.1 ∧ s.height > img.size.2 then
    if s.preserve_aspect_ratio ∧ s.resize_if_larger then
      (resize_larger_keep_aspect_ratio img s, img)
    else if s.resize_if_larger then
      (resize_larger_dont_keep_aspect_ratio img s, img)
    else (pad_to_larger_size img s, img)
  else if s.preserve_aspect_ratio then resize_thumbnail_keep_aspect_ratio img s
  else (resize_thumbnail_and_crop img s, img)

end ImageConverter

/-! ### `ImageConvertSettings.__init__` / `_validate_settings` -/

/-- Error message appended for an out-of-range anchor component. -/
def POSITION_ERR : String :=
  "Position must be a percent of width/height with values ranging from 0 to 1.\n"

/-- Error message appended for an out-of-range color / opacity channel. -/
def COLOR_ERR : String := "RGB and opacity values must be between (0, 255).\n"

/-- Error message appended when a dimension is below the minimum (the
source uses the same 'width' text for both the width and height checks). -/
def DIMENSION_ERR : String := "Desired width must be greater than 10 pixels.\n"

/-- The `error_messages` list accumulated by
`ImageConvertSettings._validate_settings`, in iteration order: the two
position components, the four `bg_color` channels (r, g, b, opacity),
then the width and height checks. -/
def validate_settings_errors (position : ℚ × ℚ) (bg_color : RGBA)
    (width height : Int) : List String :=
  (if position.1 < 0 ∨ position.1 > 1 then [POSITION_ERR] else []) ++
  (if position.2 < 0 ∨ position.2 > 1 then [POSITION_ERR] else []) ++
  (if bg_color.1 < 0 ∨ bg_color.1 > 255 then [COLOR_ERR] else []) ++
  (if bg_color.2.1 < 0 ∨ bg_color.2.1 > 255 then [COLOR_ERR] else []) ++
  (if bg_color.2.2.1 < 0 ∨ bg_color.2.2.1 > 255 then [COLOR_ERR] else []) ++
  (if bg_color.2.2.2 < 0 ∨ bg_color.2.2.2 > 255 then [COLOR_ERR] else []) ++
  (if width < REQUIRED_MIN_DIMENSION then [DIMENSION_ERR] else []) ++
  (if height < REQUIRED_MIN_DIMENSION then [DIMENSION_ERR] else [])

/-- Model of `ImageConvertSettings.__init__`: builds the RGBA background color from
`bg_color_rgb` and `opacity`, then validates; raises `ValueError` carrying
all accumulated messages when any constraint is violated. -/
def imageConvertSettingsInit (img_format : String) (width height : Int)
    (position : ℚ × ℚ) (bg_color_rgb : Int × Int × Int) (opacity : Int)
    (resize_if_larger preserve_aspect_ratio : Bool) :
    Except (List String) ImageConvertSettings :=
  let bg_color : RGBA :=
    (bg_color_rgb.1, bg_color_rgb.2.1, bg_color_rgb.2.2, opacity)
  let errs := validate_settings_errors position bg_color width height
  if errs = [] then
    .ok { format := img_format, width := width.toNat, height := height.toNat,
          position := position, bg_color := bg_color,
          resize_if_larger := resize_if_larger,
          preserve_aspect_ratio := preserve_aspect_ratio }
  else .error errs

/-! ### `atlasmaker_io.get_image` (retry loop) and
`parallelize.get_and_convert_image` -/

/-- Python exception classes relevant to the pipeline: `requests` `Timeout`,
`IOError`, `ValueError`, and any other exception class, each carrying
`str(e)`. -/
inductive PyExc : Type where
  | timeout (msg : String)
  | ioError (msg : String)
  | valueError (msg : String)
  | other (msg : String)
  deriving DecidableEq

/-- Python `str(e)` for a modelled exception. -/
def PyExc.str : PyExc → String
  | .timeout m => m | .ioError m => m | .valueError m => m | .other m => m

/-- Whether the exception is a `requests.exceptions.Timeout`. -/
def PyExc.isTimeout : PyExc → Bool
  | .timeout _ => true | _ => false

/-- Whether the exception is an `IOError`. -/
def PyExc.isIOError : PyExc → Bool
  | .ioError _ => true | _ => false

/-- The retry loop of `atlasmaker_io.get_image` for URL locations.  The
fetch (one `requests.get` + `Image.open`) is an oracle from the 0-based
attempt number to its outcome.  `fuel` is the remaining number of loop
iterations (`http_max_retries - 1` at the start), `i` the attempt number;
returns the final result together with the number of fetch invocations.

    attempts = 0
    while attempts < http_max_retries - 1:
      try: ...; return Image.open(image_data)
      except Timeout: sleep(...)
      except Exception: raise
      attempts += 1
    # Final attempt, outside the try: any exception propagates.
-/
def getImageLoop {α : Type} (oracle : Nat → Except PyExc α) :
    Nat → Nat → Except PyExc α × Nat
  | i, 0 => (oracle i, i + 1)
  | i, fuel + 1 =>
    match oracle i with
    | .ok a => (.ok a, i + 1)
    | .error (.timeout m) =>
      -- logging + time.sleep(http_retry_interval), then attempts += 1
      let _ := m
      getImageLoop oracle (i + 1) fuel
    | .error e => (.error e, i + 1)

/-- Model of `atlasmaker_io.get_image` (URL branch): the guard on
`http_max_retries`, then the retry loop followed by the unconditional
final attempt. -/
def get_image {α : Type} (oracle : Nat → Except PyExc α)
    (http_max_retries : Nat) : Except String (Except PyExc α × Nat) :=
  if http_max_retries < 1 then .error "Max retries must be 1 or greater."
  else .ok (getImageLoop oracle 0 (http_max_retries - 1))

/-- Model of `parallelize.get_and_convert_image`.  `fetch` is the outcome of
`atlasmaker_io.get_image` for the given location (value or raised
exception); `conv` the outcome of `ImageConverter(...).convert()` on the
fetched image.  The result is the returned pair, or a propagated
exception.

    if disk_cache: raise NotImplementedError()
    try: src_image = atlasmaker_io.get_image(...)
    except Exception as e: return None, str(e)
    try: ...; return image_converter.convert(), ''
    except IOError as e: return None, str(e)
-/
def get_and_convert_image {α β : Type} (disk_cache : Bool)
    (fetch : Except PyExc α) (conv : α → Except PyExc β) :
    Except PyExc (Option β × String) :=
  if disk_cache then .error (.other "NotImplementedError") else
  match fetch with
  | .error e => .ok (none, e.str)
  | .ok src_image =>
    match conv src_image with
    | .ok converted => .ok (some converted, "")
    | .error (.ioError m) => .ok (none, (PyExc.ioError m).str)
    | .error e => .error e

/-! ### `montage.py` -/

/-- Settings object `SpriteAtlasSettings`: width and height are in number of images and
default to `None`. -/
structure SpriteAtlasSettings where
  img_format : String
  height : Option Nat := none
  width : Option Nat := none
  filename : String := "spriteatlas"
  manifest_filename : String := "manifest"
  deriving DecidableEq

/-- One manifest entry (`img_manifest` dict in `_create_single_atlas`);
`errors` models the `MANIFEST_IMAGE_FAIL_KEY` entry, present only for
failed images. -/
structure ManifestEntry where
  image_name : String
  source_image : String
  offset_x : Nat
  offset_y : Nat
  errors : Option String := none
  deriving DecidableEq

/-- The assembled sprite atlas: the background canvas size in pixels and
the sequence of pastes (image, offset_x, offset_y) performed on it. -/
structure Atlas where
  size : Nat × Nat
  pastes : List (PImg × Nat × Nat)
  deriving DecidableEq

/-- Python `os.path.basename`: the part after the last `/`. -/
def basename (s : String) : String := (s.splitOn "/").getLastD s

/-- Model of `SpriteAtlasGenerator._identify_image_size`: size of the first
non-failed image; `ValueError` when every image failed. -/
def identify_image_size : List (Option PImg × String) →
    Except String (Nat × Nat)
  | [] => .error "No images were successfully retrieved and converted."
  | (some img, _) :: _ => .ok img.size
  | (none, _) :: rest => identify_image_size rest

/-- A constructed `SpriteAtlasGenerator` (fields set by `__init__` after
validation passed). -/
structure SpriteAtlasGenerator where
  images_with_statuses : List (Option PImg × String)
  img_src_paths : List String
  atlas_settings : SpriteAtlasSettings
  default_image : PImg
  /-- field `self._img_width_height_px`, from `_identify_image_size` -/
  img_width_height_px : Nat × Nat

/-- Model of `SpriteAtlasGenerator.__init__`: computes the per-cell size (raising
when all images failed), then `_validate_inputs` (length mismatch, or a
non-failed image whose size differs from the per-cell size). -/
def mkSpriteAtlasGenerator (images_with_statuses : List (Option PImg × String))
    (img_src_paths : List String) (atlas_settings : SpriteAtlasSettings)
    (default_img : PImg) : Except String SpriteAtlasGenerator :=
  match identify_image_size images_with_statuses with
  | .error e => .error e
  | .ok sz =>
    if img_src_paths.length ≠ images_with_statuses.length then
      .error ("Number of elements in image list is different from " ++
              "number of elements in src paths list.")
    else if images_with_statuses.any
        (fun r => match r.1 with
                  | some img => decide (img.size ≠ sz)
                  | none => false) then
      .error "Input images are not all the same size."
    else
      .ok { images_with_statuses := images_with_statuses,
            img_src_paths := img_src_paths,
            atlas_settings := atlas_settings,
            default_image := default_img,
            img_width_height_px := sz }

/-- Integer `ceil(sqrt n)` (`math.ceil(math.sqrt(n))` in
`_generate_default_atlas_size`). -/
def ceilSqrt (n : Nat) : Nat :=
  if Nat.sqrt n * Nat.sqrt n = n then Nat.sqrt n else Nat.sqrt n + 1

/-- Model of `SpriteAtlasGenerator._generate_default_atlas_size`: a square grid of
`ceil(sqrt(num_input_images))` images per side. -/
def SpriteAtlasGenerator.generate_default_atlas_size
    (g : SpriteAtlasGenerator) : Nat × Nat :=
  (ceilSqrt g.images_with_statuses.length, ceilSqrt g.images_with_statuses.length)

/-- The manifest entry and paste performed for the image at index `idx`,
placed at grid cell (`row`, `col`). -/
def SpriteAtlasGenerator.cellEntry (g : SpriteAtlasGenerator)
    (row col idx : Nat) : ManifestEntry × (PImg × Nat × Nat) :=
  let offset_width := col * g.img_width_height_px.1
  let offset_height := row * g.img_width_height_px.2
  let r := g.images_with_statuses.getD idx (none, "")
  let entry : ManifestEntry :=
    { image_name := basename (g.img_src_paths.getD idx ""),
      source_image := g.img_src_paths.getD idx "",
      offset_x := offset_width, offset_y := offset_height,
      errors := match r.1 with | some _ => none | none => some r.2 }
  let paste := (match r.1 with
                | some img => img
                | none => g.default_image, offset_width, offset_height)
  (entry, paste)

/-- Inner loop of `_create_single_atlas` over the columns of one row:
`col` is the current column, `fuel` the number of columns left in the
row, `idx` the running image index; the `break` on `idx` reaching the
image count ends the row.  Returns the entries and pastes of the row and
the final image index. -/
def SpriteAtlasGenerator.atlasRowLoop (g : SpriteAtlasGenerator) (row : Nat) :
    Nat → Nat → Nat → List ManifestEntry × List (PImg × Nat × Nat) × Nat
  | _, 0, idx => ([], [], idx)
  | col, fuel + 1, idx =>
    if idx < g.images_with_statuses.length then
      let (entry, paste) := g.cellEntry row col idx
      let (es, ps, idx') := g.atlasRowLoop row (col + 1) fuel (idx + 1)
      (entry :: es, paste :: ps, idx')
    else ([], [], idx)

/-- Outer loop of `_create_single_atlas` over the rows (the inner `break`
does not end the outer loop; later rows simply place nothing once all
images are consumed). -/
def SpriteAtlasGenerator.atlasRowsLoop (g : SpriteAtlasGenerator) (side : Nat) :
    Nat → Nat → Nat → List ManifestEntry × List (PImg × Nat × Nat) × Nat
  | _, 0, idx => ([], [], idx)
  | row, fuel + 1, idx =>
    let (es, ps, idx') := g.atlasRowLoop row 0 side idx
    let (es2, ps2, idx3) := g.atlasRowsLoop side (row + 1) fuel idx'
    (es ++ es2, ps ++ ps2, idx3)

/-- Model of `SpriteAtlasGenerator._create_single_atlas`: a white RGBA background
canvas of `grid side * cell size` pixels, filled row by row, left to
right, top to bottom. -/
def SpriteAtlasGenerator.create_single_atlas (g : SpriteAtlasGenerator) :
    Atlas × List ManifestEntry :=
  let side := g.generate_default_atlas_size
  let atlas_size_pixels := (side.1 * g.img_width_height_px.1,
                            side.2 * g.img_width_height_px.2)
  -- rows iterate over `range(atlas_width)`, columns over `range(atlas_height)`
  let (manifest, pastes, _) := g.atlasRowsLoop side.2 0 side.1 0
  ({ size := atlas_size_pixels, pastes := pastes }, manifest)

/-- Model of `SpriteAtlasGenerator.create_atlas`: a single square atlas when no
atlas size is specified; `NotImplementedError` otherwise. -/
def SpriteAtlasGenerator.create_atlas (g : SpriteAtlasGenerator) :
    Except String (List Atlas × List (List ManifestEntry)) :=
  if g.atlas_settings.height.isSome ∧ g.atlas_settings.width.isSome then
    .error "NotImplementedError"
  else
    let (spriteatlas1, manifest1) := g.create_single_atlas
    .ok ([spriteatlas1], [manifest1])

/-- A small concrete batch used to exercise the atlas theorems: three
results, the middle one a failure with reason `'boom'`. -/
def sampleResults : List (Option PImg × String) :=
  [(some (PImg.source 10 20 "PNG"), ""), (none, "boom"),
   (some (PImg.source 10 20 "PNG"), "")]

/-- A concrete generator over `sampleResults` (as built by a successful
`SpriteAtlasGenerator.__init__`). -/
def sampleGenerator : SpriteAtlasGenerator :=
  { images_with_statuses := sampleResults,
    img_src_paths := ["a/b.png", "c.png", "d.png"],
    atlas_settings := { img_format := "png" },
    default_image := PImg.new "RGBA" (10, 20) (255, 255, 255, 255),
    img_width_height_px := (10, 20) }

/-! ## Size behaviour of the individual resize branches -/

lemma pad_to_larger_size_size (img : PImg) (s : ImageConvertSettings) :
    (ImageConverter.pad_to_larger_size img s).size = (s.width, s.height) := by
  simp [ImageConverter.pad_to_larger_size, PImg.size]

lemma resize_larger_dont_keep_aspect_ratio_size (img : PImg)
    (s : ImageConvertSettings) :
    (ImageConverter.resize_larger_dont_keep_aspect_ratio img s).size =
      (s.width, s.height) := by
  simp [ImageConverter.resize_larger_dont_keep_aspect_ratio, PImg.size]

lemma resize_larger_keep_aspect_ratio_size (img : PImg)
    (s : ImageConvertSettings) :
    (ImageConverter.resize_larger_keep_aspect_ratio img s).size =
      (s.width, s.height) := by
  unfold ImageConverter.resize_larger_keep_aspect_ratio
  simp only []
  split
  · next h => simp only [PImg.size]; exact h.symm
  · simp [PImg.size]

lemma resize_thumbnail_keep_aspect_ratio_size (img : PImg)
    (s : ImageConvertSettings) :
    (ImageConverter.resize_thumbnail_keep_aspect_ratio img s).1.size =
      (s.width, s.height) := by
  simp [ImageConverter.resize_thumbnail_keep_aspect_ratio, PImg.size]

lemma resize_thumbnail_and_crop_size (img : PImg) (s : ImageConvertSettings) :
    (ImageConverter.resize_thumbnail_and_crop img s).size =
      (s.width, s.height) := by
  simp [ImageConverter.resize_thumbnail_and_crop, PImg.size]

/-- Claim C1. For every valid `ImageConvertSettings` and every source image
(of positive pixel size, as any opened image is), `convert` returns an
image whose pixel size equals `(settings.width, settings.height)`, in all
six branches: the no-op fast path, pad-to-larger, upscale preserving the
aspect ratio, upscale stretching, downsize preserving the aspect ratio
(thumbnail plus pad), and downsize crop. -/
theorem c1_convert_size (img : PImg) (s : ImageConvertSettings)
    (hs : s.Valid) (hw : 0 < img.size.1) (hh : 0 < img.size.2) :
    ((ImageConverter.convert img s).1).size = (s.width, s.height) := by
  unfold ImageConverter.convert
  split_ifs with h1 h2 h3 h4 h5
  · exact h1.1
  · exact resize_larger_keep_aspect_ratio_size img s
  · exact resize_larger_dont_keep_aspect_ratio_size img s
  · exact pad_to_larger_size_size img s
  · exact resize_thumbnail_keep_aspect_ratio_size img s
  · exact resize_thumbnail_and_crop_size img s

/-- Witness for C1: a concrete valid settings object and source image,
run through the downsize branch. -/
theorem c1_convert_size_witness :
    ((ImageConverter.convert (PImg.source 200 100 "JPEG")
        { format := "png", width := 100, height := 100,
          position := (1/2, 1/2), bg_color := (0, 0, 0, 0),
          resize_if_larger := false, preserve_aspect_ratio := true }).1).size =
      (100, 100) :=
  c1_convert_size _ _
    (by norm_num [ImageConvertSettings.Valid, REQUIRED_MIN_DIMENSION])
    (by decide) (by decide)

/-- Claim C2. The upscale-preserving-aspect-ratio branch does not scale the
source by `sourceSize * ratio`: `_resize_larger_keep_aspect_ratio` swaps
width and height when building the scaled size (`new_width` is computed
from `orig_h`, `new_height` from `orig_w`), contradicting its own
docstring ("keeping the aspect ratio") and the intent of taking the
minimum ratio.  At source size 20x10 and target 40x12 (ratio 6/5) the
scaled image is 12x24 — transposed, taller than the target — and is
pasted at offset (14, -6), cropping it; the claim's scaled size would be
24x12 with the height axis exactly fitting. -/
theorem c2_swapped_scaled_size :
    ImageConverter.convert (PImg.source 20 10 "JPEG")
      { format := "png", width := 40, height := 12, position := (1/2, 1/2),
        bg_color := (0, 0, 0, 0), resize_if_larger := true,
        preserve_aspect_ratio := true } =
    (PImg.pasted (PImg.new "RGBA" (40, 12) (0, 0, 0, 0))
       (PImg.fit (PImg.source 20 10 "JPEG") (12, 24) (1/2, 1/2)) (14, -6),
     PImg.source 20 10 "JPEG") := by
  have hmin : (40:ℚ) / 20 ⊓ (12:ℚ) / 10 = 6/5 := by norm_num
  have hw : (pyRound ((10:ℚ) * (6/5))).toNat = 12 := by
    norm_num [pyRound]; rfl
  have hh : (pyRound ((20:ℚ) * (6/5))).toNat = 24 := by
    norm_num [pyRound]; rfl
  have hox : pyRound (((40:ℚ) - (12:ℚ)) / 2) = 14 := by
    norm_num [pyRound]
  have hoy : pyRound (((12:ℚ) - (24:ℚ)) / 2) = -6 := by
    have h6 : (((12:ℚ)) - (24:ℚ)) / 2 = -6 := by norm_num
    rw [h6]; norm_num [pyRound, Int.ceil_neg]
  unfold ImageConverter.convert ImageConverter.resize_larger_keep_aspect_ratio
  simp [PImg.size, PImg.format, hmin, hw, hh, hox, hoy]

/-- Claim C3. When the target is strictly larger than the source in both
dimensions and `resize_if_larger` is false, `convert` pastes the unscaled
source onto a target-sized background canvas filled with the background
color, at offset `(round(width/2), round(height/2))` — an expression that
mentions neither the anchor (`position`) nor the source image's size. -/
theorem c3_pad_offset_ignores_anchor (img : PImg) (s : ImageConvertSettings)
    (h1 : img.size.1 < s.width) (h2 : img.size.2 < s.height)
    (hr : s.resize_if_larger = false) :
    ImageConverter.convert img s =
      (PImg.pasted (PImg.new "RGBA" (s.width, s.height) s.bg_color) img
         (pyRound ((s.width : ℚ) / 2), pyRound ((s.height : ℚ) / 2)), img) := by
  unfold ImageConverter.convert
  rw [if_neg, if_pos ⟨h1, h2⟩]
  · simp [hr, ImageConverter.pad_to_larger_size]
  · rintro ⟨hsz, -⟩
    rw [hsz] at h1
    exact lt_irrefl _ h1

/-- Witness for C3: a 20x10 source padded to a 41x13 canvas is pasted at
(21, 7) — `round(41/2), round(13/2)` — even with anchor (1/4, 1/4). -/
theorem c3_pad_offset_ignores_anchor_witness :
    ImageConverter.convert (PImg.source 20 10 "JPEG")
      { format := "png", width := 41, height := 13, position := (1/4, 1/4),
        bg_color := (9, 8, 7, 6), resize_if_larger := false,
        preserve_aspect_ratio := true } =
    (PImg.pasted (PImg.new "RGBA" (41, 13) (9, 8, 7, 6))
       (PImg.source 20 10 "JPEG") (21, 7), PImg.source 20 10 "JPEG") := by
  rw [c3_pad_offset_ignores_anchor _ _ (by decide) (by decide) rfl]
  norm_num [pyRound]

lemma thumbnailSize_ne_of_exceeds (sz box : Nat × Nat)
    (hbox2 : 0 < box.2) (h : box.1 < sz.1 ∨ box.2 < sz.2) :
    thumbnailSize sz box ≠ sz := by
  obtain ⟨x, y⟩ := sz
  obtain ⟨tw, th⟩ := box
  simp only [] at hbox2 h
  unfold thumbnailSize
  simp only []
  rcases Nat.lt_or_ge tw x with hx | hx
  · -- first fit triggers: the width becomes tw < x
    rw [if_pos (show x > tw from hx)]
    have hdiv : y * tw / x ≤ y := by
      calc y * tw / x ≤ y * x / x :=
            Nat.div_le_div_right (Nat.mul_le_mul_left _ (Nat.le_of_lt hx))
        _ = y := Nat.mul_div_cancel _ (Nat.lt_of_le_of_lt (Nat.zero_le _) hx)
    by_cases h2 : ((tw, max (y * tw / x) 1) : Nat × Nat).2 > th
    · -- second fit also triggers: the height becomes th < y
      rw [if_pos h2]
      intro hc
      have h22 : th = y := congrArg Prod.snd hc
      simp only [] at h2
      generalize hgen : y * tw / x = d at *
      omega
    · rw [if_neg h2]
      intro hc
      have h11 : tw = x := congrArg Prod.fst hc
      omega
  · -- width already fits, so the height must exceed: second fit triggers
    have hy : th < y := by omega
    rw [if_neg (show ¬ x > tw by omega)]
    rw [if_pos (show ((x, y) : Nat × Nat).2 > th from hy)]
    intro hc
    have h22 : th = y := congrArg Prod.snd hc
    omega

/-- Claim C10, counterexample. The downsize branch does not always
mutate the source: on the boundary of its scope ("target not strictly
larger than source in both dimensions") the source can already fit
inside the target box — source 100x100 against target 100x120 takes the
thumbnail branch (the target is not strictly larger in both dimensions),
but `Image.thumbnail` computes the unchanged size 100x100 and returns
without resizing, so the caller's image object is returned exactly as it
was, its size still its pre-call size. -/
theorem c10_boundary_no_mutation :
    (ImageConverter.convert (PImg.source 100 100 "JPEG")
        { format := "png", width := 100, height := 120,
          position := (1/2, 1/2), bg_color := (0, 0, 0, 0),
          resize_if_larger := false,
          preserve_aspect_ratio := true }).2 = PImg.source 100 100 "JPEG" ∧
    ((ImageConverter.convert (PImg.source 100 100 "JPEG")
        { format := "png", width := 100, height := 120,
          position := (1/2, 1/2), bg_color := (0, 0, 0, 0),
          resize_if_larger := false,
          preserve_aspect_ratio := true }).2).size = (100, 100) := by
  constructor <;> rfl

/-- Claim C10, amended. In the downsize path with
`preserve_aspect_ratio` true, `convert` mutates the caller's source
image object in place through `Image.thumbnail` whenever the source
exceeds the target box in at least one dimension: after `convert`
returns, the original image's size is the shrunken thumbnail size, not
its pre-call size.  (On the branch's boundary, where the source already
fits inside the target box, `thumbnail` returns without resizing and
the source is unchanged — see the counterexample.) -/
theorem c10_thumbnail_mutates_source (img : PImg) (s : ImageConvertSettings)
    (hv : s.Valid) (hpa : s.preserve_aspect_ratio = true)
    (hbig : s.width < img.size.1 ∨ s.height < img.size.2) :
    ((ImageConverter.convert img s).2).size =
        thumbnailSize img.size (s.width, s.height) ∧
    ((ImageConverter.convert img s).2).size ≠ img.size := by
  have hh10 : REQUIRED_MIN_DIMENSION ≤ (s.height : Int) := hv.2.2.2.2.2.2.2
  have hhpos : 0 < s.height := by
    unfold REQUIRED_MIN_DIMENSION at hh10; exact_mod_cast (by omega : (0:Int) < s.height)
  have hne : thumbnailSize img.size (s.width, s.height) ≠ img.size :=
    thumbnailSize_ne_of_exceeds _ _ (by simpa using hhpos) (by simpa using hbig)
  have hconv : (ImageConverter.convert img s).2 =
      PImg.resized img (thumbnailSize img.size (s.width, s.height)) := by
    unfold ImageConverter.convert
    rw [if_neg, if_neg]
    · rw [if_pos hpa]
      unfold ImageConverter.resize_thumbnail_keep_aspect_ratio PImg.thumbnail
      simp only []
      rw [if_neg hne]
    · rintro ⟨hw, hh⟩; omega
    · rintro ⟨hsz, -⟩
      rw [hsz] at hbig
      simp only [] at hbig
      omega
  rw [hconv]
  exact ⟨rfl, by simpa [PImg.size] using hne⟩

/-- Witness for C10: a 200x100 source shrunk into a 100x100 box ends up
100x50 in place — the caller's image no longer has its pre-call size. -/
theorem c10_thumbnail_mutates_source_witness :
    ((ImageConverter.convert (PImg.source 200 100 "JPEG")
        { format := "png", width := 100, height := 100,
          position := (1/2, 1/2), bg_color := (0, 0, 0, 0),
          resize_if_larger := false,
          preserve_aspect_ratio := true }).2).size = (100, 50) ∧
    (100, 50) ≠ (200, 100) := by
  have h := c10_thumbnail_mutates_source (PImg.source 200 100 "JPEG")
    { format := "png", width := 100, height := 100,
      position := (1/2, 1/2), bg_color := (0, 0, 0, 0),
      resize_if_larger := false, preserve_aspect_ratio := true }
    (by norm_num [ImageConvertSettings.Valid, REQUIRED_MIN_DIMENSION])
    rfl (by decide)
  refine ⟨?_, by decide⟩
  rw [h.1]
  decide

/-! ## `get_image` retry behaviour -/

lemma getImageLoop_ok {α : Type} (oracle : Nat → Except PyExc α)
    (i fuel : Nat) (a : α) (h : oracle i = .ok a) :
    getImageLoop oracle i fuel = (.ok a, i + 1) := by
  cases fuel <;> simp [getImageLoop, h]

lemma getImageLoop_final {α : Type} (oracle : Nat → Except PyExc α) (i : Nat) :
    getImageLoop oracle i 0 = (oracle i, i + 1) := rfl

lemma getImageLoop_nontimeout {α : Type} (oracle : Nat → Except PyExc α)
    (i fuel : Nat) (e : PyExc) (h : oracle i = .error e)
    (ht : e.isTimeout = false) :
    getImageLoop oracle i fuel = (.error e, i + 1) := by
  cases fuel with
  | zero => simp [getImageLoop, h]
  | succ f => cases e <;> simp_all [getImageLoop, PyExc.isTimeout]

lemma getImageLoop_timeout_step {α : Type} (oracle : Nat → Except PyExc α)
    (i fuel : Nat) (m : String) (h : oracle i = .error (.timeout m)) :
    getImageLoop oracle i (fuel + 1) = getImageLoop oracle (i + 1) fuel := by
  simp [getImageLoop, h]

lemma getImageLoop_skip {α : Type} (oracle : Nat → Except PyExc α)
    (k : Nat) :
    ∀ i fuel, (∀ j, j < k → ∃ m, oracle (i + j) = .error (.timeout m)) →
      k ≤ fuel →
      getImageLoop oracle i fuel = getImageLoop oracle (i + k) (fuel - k) := by
  induction k with
  | zero => intro i fuel _ _; rfl
  | succ k ih =>
    intro i fuel hto hk
    obtain ⟨f, rfl⟩ : ∃ f, fuel = f + 1 :=
      ⟨fuel - 1, by omega⟩
    obtain ⟨m, hm⟩ := hto 0 (Nat.succ_pos k)
    rw [getImageLoop_timeout_step oracle i f m (by simpa using hm)]
    rw [ih (i + 1) f (fun j hj => by
      have := hto (j + 1) (by omega)
      simpa [Nat.add_assoc, Nat.add_comm 1 j] using this) (by omega)]
    congr 1 <;> omega

lemma getImageLoop_count {α : Type} (oracle : Nat → Except PyExc α) :
    ∀ fuel i, (getImageLoop oracle i fuel).2 ≤ i + fuel + 1 := by
  intro fuel
  induction fuel with
  | zero => intro i; simp [getImageLoop]
  | succ f ih =>
    intro i
    cases h : oracle i with
    | ok a => simp [getImageLoop, h]
    | error e =>
      cases e with
      | timeout m =>
        rw [getImageLoop_timeout_step oracle i f m h]
        have := ih (i + 1)
        omega
      | ioError m => simp [getImageLoop, h]
      | valueError m => simp [getImageLoop, h]
      | other m => simp [getImageLoop, h]

/-- Claim C4. Retry behaviour of `get_image` (URL branch), for
`http_max_retries ≥ 1`:
* a fetch that times out on the first `k` attempts (`k < max_retries`)
  and succeeds on attempt `k+1` yields that success after exactly `k+1`
  invocations;
* a non-timeout error on the first attempt propagates after exactly one
  invocation;
* at most `max_retries` invocations are ever made;
* when every loop attempt times out, the final attempt is unconditional
  and its outcome — success or exception of any class — is returned or
  propagated, after exactly `max_retries` invocations. -/
theorem c4_get_image_retry {α : Type}
    (oracle₁ oracle₂ oracle₃ oracle₄ : Nat → Except PyExc α)
    (k max_retries : Nat) (a : α) (s : String)
    (hmax : 1 ≤ max_retries)
    (hto : ∀ j, j < k → ∃ m, oracle₁ j = .error (.timeout m))
    (hok : oracle₁ k = .ok a)
    (hk : k < max_retries)
    (hexc : oracle₂ 0 = .error (.other s))
    (hto4 : ∀ j, j < max_retries - 1 → ∃ m, oracle₄ j = .error (.timeout m)) :
    get_image oracle₁ max_retries = .ok (.ok a, k + 1) ∧
    get_image oracle₂ max_retries = .ok (.error (.other s), 1) ∧
    (∀ r n, get_image oracle₃ max_retries = .ok (r, n) → n ≤ max_retries) ∧
    get_image oracle₄ max_retries =
      .ok (oracle₄ (max_retries - 1), max_retries) := by
  have hguard : ¬ max_retries < 1 := by omega
  refine ⟨?_, ?_, ?_, ?_⟩
  · rw [get_image, if_neg hguard,
      getImageLoop_skip oracle₁ k 0 (max_retries - 1) (by simpa using hto)
        (by omega),
      getImageLoop_ok oracle₁ _ _ a (by simpa using hok)]
    norm_num
  · rw [get_image, if_neg hguard,
      getImageLoop_nontimeout oracle₂ 0 (max_retries - 1) (.other s) hexc rfl]
  · intro r n hrn
    rw [get_image, if_neg hguard] at hrn
    have hle := getImageLoop_count oracle₃ (max_retries - 1) 0
    have hn : (getImageLoop oracle₃ 0 (max_retries - 1)).2 = n := by
      rw [show getImageLoop oracle₃ 0 (max_retries - 1) = (r, n) from
        by exact Except.ok.inj hrn]
    omega
  · rw [get_image, if_neg hguard,
      getImageLoop_skip oracle₄ (max_retries - 1) 0 (max_retries - 1)
        (by simpa using hto4) (by omega)]
    simp [getImageLoop_final]
    omega

/-- Witness for C4: with `max_retries = 3`, an oracle that times out
twice then succeeds is invoked three times and succeeds; an oracle that
raises a non-timeout error fails after one invocation; an oracle that
always times out propagates the third timeout after three invocations. -/
theorem c4_get_image_retry_witness :
    get_image (fun i => if i < 2 then .error (.timeout "t") else .ok 7) 3 =
      .ok (.ok 7, 3) ∧
    get_image (fun _ => (.error (.other "boom") : Except PyExc Nat)) 3 =
      .ok (.error (.other "boom"), 1) ∧
    (∀ r n, get_image (fun i => if i < 2 then .error (.timeout "t")
        else .ok 7) 3 = .ok (r, n) → n ≤ 3) ∧
    get_image (fun _ => (.error (.timeout "t") : Except PyExc Nat)) 3 =
      .ok (.error (.timeout "t"), 3) := by
  have h := c4_get_image_retry
    (fun i => if i < 2 then .error (.timeout "t") else .ok 7)
    (fun _ => (.error (.other "boom") : Except PyExc Nat))
    (fun i => if i < 2 then .error (.timeout "t") else .ok 7)
    (fun _ => (.error (.timeout "t") : Except PyExc Nat))
    2 3 7 "boom" (by omega)
    (fun j hj => ⟨"t", by simp [hj]⟩) (by simp) (by omega) rfl
    (fun j hj => ⟨"t", rfl⟩)
  exact h

/-! ## `get_and_convert_image` error handling -/

/-- Claim C5, counterexample. It is not the case that
`get_and_convert_image` never propagates a raised error whatever
exception fetch or conversion raises: when the conversion raises a
non-`IOError` exception (here a `ValueError`), the exception propagates
to the caller instead of being returned as a `(None, reason)` pair. -/
theorem c5_counterexample :
    ¬ (∀ (fetch : Except PyExc Unit) (conv : Unit → Except PyExc Unit),
        ∃ p, get_and_convert_image false fetch conv = .ok p) := by
  intro hall
  obtain ⟨p, hp⟩ :=
    hall (.ok ()) (fun _ => .error (.valueError "unknown raw mode"))
  simp [get_and_convert_image] at hp

/-- Claim C5, amended. `get_and_convert_image` (with the default
`disk_cache = False`) returns exactly one of `(image, '')` on success or
`(None, reasonText)` on handled failure; every exception raised by the
fetch is caught and returned as `(None, str(e))`, and a conversion
exception is caught exactly when it is an `IOError` — a non-`IOError`
conversion exception propagates to the caller. -/
theorem c5_fetch_errors_caught {α β : Type} (fetch : Except PyExc α)
    (conv : α → Except PyExc β) :
    (∀ e, fetch = .error e →
      get_and_convert_image false fetch conv = .ok (none, e.str)) ∧
    (∀ a b, fetch = .ok a → conv a = .ok b →
      get_and_convert_image false fetch conv = .ok (some b, "")) ∧
    (∀ a m, fetch = .ok a → conv a = .error (.ioError m) →
      get_and_convert_image false fetch conv = .ok (none, m)) ∧
    (∀ a e, fetch = .ok a → conv a = .error e → e.isIOError = false →
      get_and_convert_image false fetch conv = .error e) ∧
    (∀ p, get_and_convert_image false fetch conv = .ok p →
      (∃ b, p = (some b, "")) ∨ (∃ msg, p = (none, msg))) := by
  refine ⟨?_, ?_, ?_, ?_, ?_⟩
  · rintro e rfl
    simp [get_and_convert_image]
  · rintro a b rfl hc
    simp [get_and_convert_image, hc]
  · rintro a m rfl hc
    simp [get_and_convert_image, hc, PyExc.str]
  · rintro a e rfl hc hio
    cases e <;> simp_all [get_and_convert_image, PyExc.isIOError]
  · intro p hp
    unfold get_and_convert_image at hp
    cases fetch with
    | error e => right; exact ⟨e.str, by simpa using hp.symm⟩
    | ok a =>
      cases hc : conv a with
      | ok b => left; exact ⟨b, by simp [hc] at hp; exact hp.symm⟩
      | error e =>
        cases e <;> simp [hc] at hp
        right
        exact ⟨_, hp.symm⟩

/-- Witness for C5 (amended): a concrete successful fetch and conversion
yield `(some image, '')`. -/
theorem c5_fetch_errors_caught_witness :
    get_and_convert_image false (Except.ok 3)
      (fun n : Nat => Except.ok (n + 1)) = .ok (some 4, "") :=
  (c5_fetch_errors_caught (Except.ok 3)
    (fun n : Nat => Except.ok (n + 1))).2.1 3 4 rfl rfl

/-! ## Settings validation -/

lemma ite_singleton_eq_nil (c : Prop) [Decidable c] (x : String) :
    ((if c then [x] else []) = []) ↔ ¬c := by
  split <;> simp_all

lemma validate_settings_errors_eq_nil_iff (position : ℚ × ℚ) (bg : RGBA)
    (width height : Int) :
    validate_settings_errors position bg width height = [] ↔
      ¬((position.1 < 0 ∨ position.1 > 1) ∨
        (position.2 < 0 ∨ position.2 > 1) ∨
        (bg.1 < 0 ∨ bg.1 > 255) ∨ (bg.2.1 < 0 ∨ bg.2.1 > 255) ∨
        (bg.2.2.1 < 0 ∨ bg.2.2.1 > 255) ∨ (bg.2.2.2 < 0 ∨ bg.2.2.2 > 255) ∨
        width < REQUIRED_MIN_DIMENSION ∨ height < REQUIRED_MIN_DIMENSION) := by
  unfold validate_settings_errors
  simp only [List.append_eq_nil, ite_singleton_eq_nil]
  tauto

lemma validate_settings_errors_length (position : ℚ × ℚ) (bg : RGBA)
    (width height : Int) :
    (validate_settings_errors position bg width height).length =
      (if position.1 < 0 ∨ position.1 > 1 then 1 else 0) +
      (if position.2 < 0 ∨ position.2 > 1 then 1 else 0) +
      (if bg.1 < 0 ∨ bg.1 > 255 then 1 else 0) +
      (if bg.2.1 < 0 ∨ bg.2.1 > 255 then 1 else 0) +
      (if bg.2.2.1 < 0 ∨ bg.2.2.1 > 255 then 1 else 0) +
      (if bg.2.2.2 < 0 ∨ bg.2.2.2 > 255 then 1 else 0) +
      (if width < REQUIRED_MIN_DIMENSION then 1 else 0) +
      (if height < REQUIRED_MIN_DIMENSION then 1 else 0) := by
  unfold validate_settings_errors
  simp only [List.length_append, apply_ite List.length, List.length_singleton,
    List.length_nil]

/-- Claim C9. Constructing `ImageConvertSettings` raises a validation error
if and only if some anchor component is outside [0,1], some background
channel (including opacity) is outside [0,255], or the width or height is
below the minimum dimension 10; and the raised error carries one message
for every violated constraint, not only the first. -/
theorem c9_settings_validation (img_format : String) (width height : Int)
    (position : ℚ × ℚ) (bg_color_rgb : Int × Int × Int) (opacity : Int)
    (resize_if_larger preserve_aspect_ratio : Bool) :
    ((∃ msgs, imageConvertSettingsInit img_format width height position
        bg_color_rgb opacity resize_if_larger preserve_aspect_ratio =
          .error msgs) ↔
      ((position.1 < 0 ∨ position.1 > 1) ∨
       (position.2 < 0 ∨ position.2 > 1) ∨
       (bg_color_rgb.1 < 0 ∨ bg_color_rgb.1 > 255) ∨
       (bg_color_rgb.2.1 < 0 ∨ bg_color_rgb.2.1 > 255) ∨
       (bg_color_rgb.2.2 < 0 ∨ bg_color_rgb.2.2 > 255) ∨
       (opacity < 0 ∨ opacity > 255) ∨
       width < 10 ∨ height < 10)) ∧
    (∀ msgs, imageConvertSettingsInit img_format width height position
        bg_color_rgb opacity resize_if_larger preserve_aspect_ratio =
          .error msgs →
      msgs.length =
        (if position.1 < 0 ∨ position.1 > 1 then 1 else 0) +
        (if position.2 < 0 ∨ position.2 > 1 then 1 else 0) +
        (if bg_color_rgb.1 < 0 ∨ bg_color_rgb.1 > 255 then 1 else 0) +
        (if bg_color_rgb.2.1 < 0 ∨ bg_color_rgb.2.1 > 255 then 1 else 0) +
        (if bg_color_rgb.2.2 < 0 ∨ bg_color_rgb.2.2 > 255 then 1 else 0) +
        (if opacity < 0 ∨ opacity > 255 then 1 else 0) +
        (if width < 10 then 1 else 0) +
        (if height < 10 then 1 else 0)) := by
  have hnil := validate_settings_errors_eq_nil_iff position
    (bg_color_rgb.1, bg_color_rgb.2.1, bg_color_rgb.2.2, opacity) width height
  have hlen := validate_settings_errors_length position
    (bg_color_rgb.1, bg_color_rgb.2.1, bg_color_rgb.2.2, opacity) width height
  unfold REQUIRED_MIN_DIMENSION at hnil hlen
  constructor
  · constructor
    · rintro ⟨msgs, hmsgs⟩
      by_contra hviol
      have hE := hnil.mpr hviol
      unfold imageConvertSettingsInit at hmsgs
      simp only [] at hmsgs
      rw [if_pos hE] at hmsgs
      exact Except.noConfusion hmsgs
    · intro hviol
      refine ⟨validate_settings_errors position
        (bg_color_rgb.1, bg_color_rgb.2.1, bg_color_rgb.2.2, opacity)
        width height, ?_⟩
      unfold imageConvertSettingsInit
      simp only []
      rw [if_neg (fun hE => (hnil.mp hE) hviol)]
  · intro msgs hmsgs
    unfold imageConvertSettingsInit at hmsgs
    simp only [] at hmsgs
    split at hmsgs
    · exact Except.noConfusion hmsgs
    · cases hmsgs
      exact hlen

/-- Witness for C9: anchor x = 2, green = 300, opacity = -1 and width = 5
violate four constraints; construction fails with four messages. -/
theorem c9_settings_validation_witness :
    ∃ msgs, imageConvertSettingsInit "png" 5 40 (2, 1/2) (0, 300, 0) (-1)
        false true = .error msgs ∧ msgs.length = 4 := by
  have h := c9_settings_validation "png" 5 40 (2, 1/2) (0, 300, 0) (-1)
    false true
  obtain ⟨msgs, hmsgs⟩ := h.1.mpr (by norm_num)
  refine ⟨msgs, hmsgs, ?_⟩
  rw [h.2 msgs hmsgs]
  norm_num

/-! ## Atlas assembly: characterization of the fill loops -/

lemma atlasRowLoop_spec (g : SpriteAtlasGenerator) (row : Nat) :
    ∀ fuel col idx,
      g.atlasRowLoop row col fuel idx =
        ((List.range (min fuel (g.images_with_statuses.length - idx))).map
           (fun j => (g.cellEntry row (col + j) (idx + j)).1),
         (List.range (min fuel (g.images_with_statuses.length - idx))).map
           (fun j => (g.cellEntry row (col + j) (idx + j)).2),
         idx + min fuel (g.images_with_statuses.length - idx)) := by
  intro fuel
  induction fuel with
  | zero =>
    intro col idx
    simp [SpriteAtlasGenerator.atlasRowLoop]
  | succ f ih =>
    intro col idx
    by_cases hidx : idx < g.images_with_statuses.length
    · have hmin : min (f + 1) (g.images_with_statuses.length - idx)
          = (min f (g.images_with_statuses.length - (idx + 1))) + 1 := by omega
      rw [SpriteAtlasGenerator.atlasRowLoop, if_pos hidx, ih (col + 1) (idx + 1),
        hmin]
      simp only [List.range_succ_eq_map, List.map_cons, List.map_map,
        Prod.mk.injEq]
      refine ⟨?_, ?_, ?_⟩
      · exact congrArg₂ List.cons rfl (List.map_congr_left (fun j _ => by
          simp only [Function.comp_apply]
          have h1 : col + 1 + j = col + Nat.succ j := by omega
          have h2 : idx + 1 + j = idx + Nat.succ j := by omega
          rw [h1, h2]))
      · exact congrArg₂ List.cons rfl (List.map_congr_left (fun j _ => by
          simp only [Function.comp_apply]
          have h1 : col + 1 + j = col + Nat.succ j := by omega
          have h2 : idx + 1 + j = idx + Nat.succ j := by omega
          rw [h1, h2]))
      · omega
    · have hz : g.images_with_statuses.length - idx = 0 := by omega
      rw [SpriteAtlasGenerator.atlasRowLoop, if_neg hidx]
      simp [hz]

lemma map_range'_shift {β : Type} (ffun : Nat → β) (s m : Nat) :
    (List.range' s m).map ffun = (List.range m).map (fun j => ffun (s + j)) := by
  rw [List.range'_eq_map_range, List.map_map]
  rfl

lemma atlasRowsLoop_spec (g : SpriteAtlasGenerator) (side : Nat)
    (hside : 0 < side) :
    ∀ fuel row,
      g.atlasRowsLoop side row fuel
          (min (row * side) g.images_with_statuses.length) =
        ((List.range' (min (row * side) g.images_with_statuses.length)
            (min ((row + fuel) * side) g.images_with_statuses.length -
             min (row * side) g.images_with_statuses.length)).map
           (fun i => (g.cellEntry (i / side) (i % side) i).1),
         (List.range' (min (row * side) g.images_with_statuses.length)
            (min ((row + fuel) * side) g.images_with_statuses.length -
             min (row * side) g.images_with_statuses.length)).map
           (fun i => (g.cellEntry (i / side) (i % side) i).2),
         min ((row + fuel) * side) g.images_with_statuses.length) := by
  intro fuel
  induction fuel with
  | zero =>
    intro row
    simp [SpriteAtlasGenerator.atlasRowsLoop]
  | succ f ih =>
    intro row
    have hca : (row + (f + 1)) * side = (row + 1 + f) * side := by
      congr 1
      omega
    have hmul1 : (row + 1) * side = row * side + side := by
      rw [Nat.add_mul, Nat.one_mul]
    have hmulf : (row + 1 + f) * side = (row + 1) * side + f * side := by
      rw [Nat.add_mul]
    -- the index reached after finishing this row
    have hidx1 : min (row * side) g.images_with_statuses.length +
        min side (g.images_with_statuses.length -
          min (row * side) g.images_with_statuses.length) =
        min ((row + 1) * side) g.images_with_statuses.length := by
      rw [hmul1]
      generalize row * side = A
      omega
    have hstep : min ((row + 1) * side) g.images_with_statuses.length ≤
        min ((row + 1 + f) * side) g.images_with_statuses.length := by
      rw [hmulf]
      generalize (row + 1) * side = B
      omega
    have hmono : min (row * side) g.images_with_statuses.length ≤
        min ((row + 1) * side) g.images_with_statuses.length := by
      rw [hmul1]
      generalize row * side = A
      omega
    rw [SpriteAtlasGenerator.atlasRowsLoop,
      atlasRowLoop_spec g row side 0
        (min (row * side) g.images_with_statuses.length)]
    simp only [hidx1, ih (row + 1), hca, Prod.mk.injEq]
    have hsplit : min ((row + 1 + f) * side) g.images_with_statuses.length -
          min (row * side) g.images_with_statuses.length =
        (min ((row + 1 + f) * side) g.images_with_statuses.length -
          min ((row + 1) * side) g.images_with_statuses.length) +
        (min ((row + 1) * side) g.images_with_statuses.length -
          min (row * side) g.images_with_statuses.length) :=
      (Nat.sub_add_sub_cancel hstep hmono).symm
    have hm : min ((row + 1) * side) g.images_with_statuses.length -
        min (row * side) g.images_with_statuses.length =
        min side (g.images_with_statuses.length -
          min (row * side) g.images_with_statuses.length) := by
      rw [← hidx1, Nat.add_sub_cancel_left]
    have hshiftstart : min (row * side) g.images_with_statuses.length +
        1 * (min ((row + 1) * side) g.images_with_statuses.length -
          min (row * side) g.images_with_statuses.length) =
        min ((row + 1) * side) g.images_with_statuses.length := by
      rw [Nat.one_mul, Nat.add_sub_cancel' hmono]
    refine ⟨?_, ?_, trivial⟩ <;>
    · -- split the target range' into this row's cells and the rest
      rw [hsplit, ← List.range'_append, List.map_append, hshiftstart]
      congr 1
      · -- this row: indices i = idx0 + j, row number i / side = row
        rw [map_range'_shift, hm]
        refine List.map_congr_left (fun j hj => ?_)
        rw [List.mem_range] at hj
        rcases Nat.le_total (row * side) g.images_with_statuses.length
          with hle | hle
        · have hidx0 : min (row * side) g.images_with_statuses.length =
              row * side := Nat.min_eq_left hle
          have hjside : j < side := Nat.lt_of_lt_of_le hj (Nat.min_le_left _ _)
          have hdiv : (row * side + j) / side = row := by
            rw [Nat.mul_comm, Nat.add_comm,
              Nat.add_mul_div_left _ _ hside, Nat.div_eq_of_lt hjside,
              Nat.zero_add]
          have hmod : (row * side + j) % side = j := by
            rw [Nat.mul_comm, Nat.add_comm, Nat.add_mul_mod_self_left,
              Nat.mod_eq_of_lt hjside]
          rw [hidx0, hdiv, hmod, Nat.zero_add]
        · have hz : g.images_with_statuses.length -
              min (row * side) g.images_with_statuses.length = 0 := by
            rw [Nat.min_eq_right hle, Nat.sub_self]
          rw [hz] at hj
          simp at hj

lemma le_ceilSqrt_mul_self (n : Nat) : n ≤ ceilSqrt n * ceilSqrt n := by
  unfold ceilSqrt
  split
  · next h => exact Nat.le_of_eq h.symm
  · exact Nat.le_of_lt
      (by simpa [Nat.succ_eq_add_one] using Nat.lt_succ_sqrt n)

lemma ceilSqrt_pos (n : Nat) (hn : 0 < n) : 0 < ceilSqrt n := by
  unfold ceilSqrt
  split
  · next h =>
    rcases Nat.eq_zero_or_pos (Nat.sqrt n) with h0 | hpos
    · rw [h0] at h
      simp at h
      omega
    · exact hpos
  · exact Nat.succ_pos _

/-- Full characterization of `_create_single_atlas`: the canvas is
`side * cell` pixels for `side = ceil(sqrt N)`, and both the manifest and
the paste sequence list the cells of indices `0 .. N-1` in input order,
index `i` at grid cell (row `i / side`, column `i % side`). -/
lemma create_single_atlas_spec (g : SpriteAtlasGenerator)
    (hN : 0 < g.images_with_statuses.length) :
    g.create_single_atlas =
      ({ size := (ceilSqrt g.images_with_statuses.length *
                    g.img_width_height_px.1,
                  ceilSqrt g.images_with_statuses.length *
                    g.img_width_height_px.2),
         pastes := (List.range g.images_with_statuses.length).map
           (fun i => (g.cellEntry
              (i / ceilSqrt g.images_with_statuses.length)
              (i % ceilSqrt g.images_with_statuses.length) i).2) },
       (List.range g.images_with_statuses.length).map
         (fun i => (g.cellEntry
            (i / ceilSqrt g.images_with_statuses.length)
            (i % ceilSqrt g.images_with_statuses.length) i).1)) := by
  have hside : 0 < ceilSqrt g.images_with_statuses.length :=
    ceilSqrt_pos _ hN
  have h0 : (0 : Nat) =
      min (0 * ceilSqrt g.images_with_statuses.length)
        g.images_with_statuses.length := by
    rw [Nat.zero_mul]
    exact (Nat.min_eq_left (Nat.zero_le _)).symm
  have hrows := atlasRowsLoop_spec g (ceilSqrt g.images_with_statuses.length)
    hside (ceilSqrt g.images_with_statuses.length) 0
  rw [← h0, Nat.zero_add,
    Nat.min_eq_right (le_ceilSqrt_mul_self g.images_with_statuses.length),
    Nat.sub_zero] at hrows
  unfold SpriteAtlasGenerator.create_single_atlas
    SpriteAtlasGenerator.generate_default_atlas_size
  simp only []
  rw [hrows, ← List.range_eq_range']

/-- Claim C6. For a non-empty batch of N results and no explicit atlas
size, `create_atlas` produces a single atlas whose grid side is
`ceil(sqrt N)` images in each direction, with canvas size
`(side * cellWidth, side * cellHeight)`; the manifest has exactly N
entries in the same order as the input results, and entry `i` records
pixel offset `((i mod side) * cellWidth, (i div side) * cellHeight)`
(row-major fill). -/
theorem c6_single_atlas_layout (g : SpriteAtlasGenerator)
    (hspec : g.atlas_settings.height = none ∨ g.atlas_settings.width = none)
    (hN : 0 < g.images_with_statuses.length) :
    ∃ atlas manifest,
      g.create_atlas = .ok ([atlas], [manifest]) ∧
      atlas.size =
        (ceilSqrt g.images_with_statuses.length * g.img_width_height_px.1,
         ceilSqrt g.images_with_statuses.length * g.img_width_height_px.2) ∧
      manifest.length = g.images_with_statuses.length ∧
      (∀ i, i < g.images_with_statuses.length →
        manifest.getD i
            { image_name := "", source_image := "", offset_x := 0,
              offset_y := 0 } =
          { image_name := basename (g.img_src_paths.getD i ""),
            source_image := g.img_src_paths.getD i "",
            offset_x := (i % ceilSqrt g.images_with_statuses.length) *
              g.img_width_height_px.1,
            offset_y := (i / ceilSqrt g.images_with_statuses.length) *
              g.img_width_height_px.2,
            errors :=
              match (g.images_with_statuses.getD i (none, "")).1 with
              | some _ => none
              | none => some (g.images_with_statuses.getD i (none, "")).2 }) := by
  have hatlas := create_single_atlas_spec g hN
  refine ⟨{ size := (ceilSqrt g.images_with_statuses.length *
                g.img_width_height_px.1,
              ceilSqrt g.images_with_statuses.length *
                g.img_width_height_px.2),
            pastes := (List.range g.images_with_statuses.length).map
              (fun i => (g.cellEntry
                 (i / ceilSqrt g.images_with_statuses.length)
                 (i % ceilSqrt g.images_with_statuses.length) i).2) },
          (List.range g.images_with_statuses.length).map
            (fun i => (g.cellEntry
               (i / ceilSqrt g.images_with_statuses.length)
               (i % ceilSqrt g.images_with_statuses.length) i).1),
          ?_, rfl, ?_, ?_⟩
  · unfold SpriteAtlasGenerator.create_atlas
    rw [if_neg (by rcases hspec with h | h <;> simp [h])]
    rw [hatlas]
  · simp
  · intro i hi
    have hl : i < ((List.range g.images_with_statuses.length).map
        (fun i => (g.cellEntry
          (i / ceilSqrt g.images_with_statuses.length)
          (i % ceilSqrt g.images_with_statuses.length) i).1)).length := by
      simpa using hi
    rw [List.getD_eq_getElem _ _ hl, List.getElem_map, List.getElem_range]
    rfl

/-- Witness for C6: the three-image sample batch (grid side 2, cells
10x20). -/
theorem c6_single_atlas_layout_witness :
    ∃ atlas manifest,
      sampleGenerator.create_atlas = .ok ([atlas], [manifest]) ∧
      atlas.size =
        (ceilSqrt sampleGenerator.images_with_statuses.length *
           sampleGenerator.img_width_height_px.1,
         ceilSqrt sampleGenerator.images_with_statuses.length *
           sampleGenerator.img_width_height_px.2) ∧
      manifest.length = sampleGenerator.images_with_statuses.length ∧
      (∀ i, i < sampleGenerator.images_with_statuses.length →
        manifest.getD i
            { image_name := "", source_image := "", offset_x := 0,
              offset_y := 0 } =
          { image_name := basename (sampleGenerator.img_src_paths.getD i ""),
            source_image := sampleGenerator.img_src_paths.getD i "",
            offset_x := (i % ceilSqrt sampleGenerator.images_with_statuses.length) *
              sampleGenerator.img_width_height_px.1,
            offset_y := (i / ceilSqrt sampleGenerator.images_with_statuses.length) *
              sampleGenerator.img_width_height_px.2,
            errors :=
              match (sampleGenerator.images_with_statuses.getD i (none, "")).1 with
              | some _ => none
              | none =>
                some (sampleGenerator.images_with_statuses.getD i (none, "")).2 }) :=
  c6_single_atlas_layout sampleGenerator (Or.inl rfl) (by decide)

/-- Claim C7. In the assembled atlas, the default image is pasted at cell
`i` exactly for the failed results (`image is None`), the real converted
image for successes; manifest entry `i` has an `errors` field if and only
if result `i` failed, and a failed entry carries the failure's reason
string. -/
theorem c7_failures_get_default_and_errors (g : SpriteAtlasGenerator)
    (hN : 0 < g.images_with_statuses.length) :
    (g.create_single_atlas.1).pastes.length = g.images_with_statuses.length ∧
    (g.create_single_atlas.2).length = g.images_with_statuses.length ∧
    ∀ i, i < g.images_with_statuses.length →
      (((g.create_single_atlas.2).getD i
          { image_name := "", source_image := "", offset_x := 0,
            offset_y := 0 }).errors ≠ none ↔
        (g.images_with_statuses.getD i (none, "")).1 = none) ∧
      (∀ st, g.images_with_statuses.getD i (none, "") = (none, st) →
        ((g.create_single_atlas.1).pastes.getD i
            (g.default_image, 0, 0)).1 = g.default_image ∧
        ((g.create_single_atlas.2).getD i
            { image_name := "", source_image := "", offset_x := 0,
              offset_y := 0 }).errors = some st) ∧
      (∀ img, (g.images_with_statuses.getD i (none, "")).1 = some img →
        ((g.create_single_atlas.1).pastes.getD i
            (g.default_image, 0, 0)).1 = img ∧
        ((g.create_single_atlas.2).getD i
            { image_name := "", source_image := "", offset_x := 0,
              offset_y := 0 }).errors = none) := by
  have hatlas := create_single_atlas_spec g hN
  rw [hatlas]
  refine ⟨by simp, by simp, ?_⟩
  intro i hi
  have hlp : i < ((List.range g.images_with_statuses.length).map
      (fun i => (g.cellEntry
        (i / ceilSqrt g.images_with_statuses.length)
        (i % ceilSqrt g.images_with_statuses.length) i).2)).length := by
    simpa using hi
  have hlm : i < ((List.range g.images_with_statuses.length).map
      (fun i => (g.cellEntry
        (i / ceilSqrt g.images_with_statuses.length)
        (i % ceilSqrt g.images_with_statuses.length) i).1)).length := by
    simpa using hi
  simp only [List.getD_eq_getElem _ _ hlp, List.getD_eq_getElem _ _ hlm,
    List.getElem_map, List.getElem_range]
  unfold SpriteAtlasGenerator.cellEntry
  simp only []
  refine ⟨?_, ?_, ?_⟩
  · cases hr : (g.images_with_statuses.getD i (none, "")).1 <;> simp [hr]
  · intro st hst
    rw [hst]
    simp
  · intro img hr
    cases hfull : g.images_with_statuses.getD i (none, "") with
    | mk o stv =>
      rw [hfull] at hr
      simp only [] at hr
      rw [hr]
      simp

/-- Witness for C7: the three-image sample batch whose middle result
failed with reason `'boom'`. -/
theorem c7_failures_get_default_and_errors_witness :
    (sampleGenerator.create_single_atlas.1).pastes.length =
      sampleGenerator.images_with_statuses.length ∧
    (sampleGenerator.create_single_atlas.2).length =
      sampleGenerator.images_with_statuses.length ∧
    ∀ i, i < sampleGenerator.images_with_statuses.length →
      (((sampleGenerator.create_single_atlas.2).getD i
          { image_name := "", source_image := "", offset_x := 0,
            offset_y := 0 }).errors ≠ none ↔
        (sampleGenerator.images_with_statuses.getD i (none, "")).1 = none) ∧
      (∀ st, sampleGenerator.images_with_statuses.getD i (none, "") =
          (none, st) →
        ((sampleGenerator.create_single_atlas.1).pastes.getD i
            (sampleGenerator.default_image, 0, 0)).1 =
          sampleGenerator.default_image ∧
        ((sampleGenerator.create_single_atlas.2).getD i
            { image_name := "", source_image := "", offset_x := 0,
              offset_y := 0 }).errors = some st) ∧
      (∀ img,
          (sampleGenerator.images_with_statuses.getD i (none, "")).1 =
            some img →
        ((sampleGenerator.create_single_atlas.1).pastes.getD i
            (sampleGenerator.default_image, 0, 0)).1 = img ∧
        ((sampleGenerator.create_single_atlas.2).getD i
            { image_name := "", source_image := "", offset_x := 0,
              offset_y := 0 }).errors = none) :=
  c7_failures_get_default_and_errors sampleGenerator (by decide)

lemma identify_image_size_error_iff (results : List (Option PImg × String)) :
    (∃ e, identify_image_size results = .error e) ↔
      ∀ r ∈ results, r.1 = none := by
  induction results with
  | nil => simp [identify_image_size]
  | cons r rest ih =>
    obtain ⟨o, st⟩ := r
    cases o with
    | none => simpa [identify_image_size] using ih
    | some img => simp [identify_image_size]

/-- Claim C8. Constructing the atlas assembler raises a validation error if
and only if every result is a failure, or the results and source-path
lists have different lengths, or some successful image's size differs
from the canonical per-cell size (the first successful image's size, as
computed by `_identify_image_size`); otherwise construction succeeds. -/
theorem c8_generator_validation (results : List (Option PImg × String))
    (paths : List String) (settings : SpriteAtlasSettings)
    (default_img : PImg) :
    (∃ e, mkSpriteAtlasGenerator results paths settings default_img =
        .error e) ↔
      ((∀ r ∈ results, r.1 = none) ∨
       paths.length ≠ results.length ∨
       (∃ sz, identify_image_size results = .ok sz ∧
         ∃ r ∈ results, ∃ img, r.1 = some img ∧ img.size ≠ sz)) := by
  unfold mkSpriteAtlasGenerator
  cases hid : identify_image_size results with
  | error e =>
    simp only []
    constructor
    · intro _
      exact Or.inl ((identify_image_size_error_iff results).mp ⟨e, hid⟩)
    · intro _
      exact ⟨e, rfl⟩
  | ok sz =>
    simp only []
    have hnotall : ¬ ∀ r ∈ results, r.1 = none := by
      intro hall
      obtain ⟨e, he⟩ := (identify_image_size_error_iff results).mpr hall
      rw [hid] at he
      exact Except.noConfusion he
    by_cases hlen : paths.length ≠ results.length
    · rw [if_pos hlen]
      exact ⟨fun _ => Or.inr (Or.inl hlen), fun _ => ⟨_, rfl⟩⟩
    · rw [if_neg hlen]
      by_cases hany : results.any
          (fun r => match r.1 with
                    | some img => decide (img.size ≠ sz)
                    | none => false)
      · rw [if_pos hany]
        refine ⟨fun _ => Or.inr (Or.inr ⟨sz, rfl, ?_⟩), fun _ => ⟨_, rfl⟩⟩
        obtain ⟨r, hr, hmatch⟩ := List.any_eq_true.mp hany
        refine ⟨r, hr, ?_⟩
        cases ho : r.1 with
        | none => rw [ho] at hmatch; simp at hmatch
        | some img =>
          rw [ho] at hmatch
          exact ⟨img, rfl, of_decide_eq_true hmatch⟩
      · rw [if_neg hany]
        constructor
        · rintro ⟨e, he⟩
          exact Except.noConfusion he
        · rintro (hall | hl | ⟨sz9, hsz9, r, hr, img, ho, hne⟩)
          · exact absurd hall hnotall
          · exact absurd hl hlen
          · exfalso
            apply hany
            refine List.any_eq_true.mpr ⟨r, hr, ?_⟩
            rw [ho]
            cases hsz9
            exact decide_eq_true hne
